import Mathlib

/-!
Verification of the cloudbridge core against its specification.

This file shallowly embeds the two source files
`cloudbridge/cloud/providers/openstack/resources.py` and
`cloudbridge/cloud/providers/aws/services.py`: Python dictionaries become
association lists, the provider SDK collaborators become explicit function
or `Option` parameters, mutable objects become records threaded through
folds, and Python exceptions become an explicit `Except`/error field.
-/

/- ===== Canonical state enumerations (cloudbridge.cloud.interfaces.resources) ===== -/

/-- Canonical instance lifecycle states. -/
inductive InstanceState
  | PENDING
  | CONFIGURING
  | REBOOTING
  | RUNNING
  | STOPPED
  | TERMINATED
  | ERROR
  | UNKNOWN
deriving DecidableEq, Repr

/-- Canonical volume lifecycle states. -/
inductive VolumeState
  | CREATING
  | CONFIGURING
  | AVAILABLE
  | IN_USE
  | ERROR
  | UNKNOWN
deriving DecidableEq, Repr

/-- Canonical snapshot lifecycle states. -/
inductive SnapshotState
  | PENDING
  | CONFIGURING
  | AVAILABLE
  | ERROR
  | UNKNOWN
deriving DecidableEq, Repr

/-- Canonical machine-image lifecycle states. -/
inductive MachineImageState
  | PENDING
  | AVAILABLE
  | ERROR
  | UNKNOWN
deriving DecidableEq, Repr

/- ===== Raw SDK payloads ===== -/

/-- The raw SDK object cached by an OpenStack resource wrapper
(`self._os_instance`, `self._volume`, `self._snapshot`, `self._os_image`).
Only the `status` attribute is ever read or written by the `state` and
`refresh` methods; every other attribute of the dynamic Python object is
modelled by the `fields` attribute map. -/
structure RawPayload where
  status : String
  fields : List (String × String)
deriving DecidableEq, Repr

/-- Python `dict.get(key, default)` over an association list. -/
def dictGet {α : Type} (m : List (String × α)) (k : String) (d : α) : α :=
  match m.lookup k with
  | some v => v
  | Option.none => d

/-- `OpenStackInstance.INSTANCE_STATE_MAP` (resources.py lines 177-196). -/
def INSTANCE_STATE_MAP : List (String × InstanceState) :=
  [("ACTIVE", InstanceState.RUNNING),
   ("BUILD", InstanceState.PENDING),
   ("DELETED", InstanceState.TERMINATED),
   ("ERROR", InstanceState.ERROR),
   ("HARD_REBOOT", InstanceState.REBOOTING),
   ("PASSWORD", InstanceState.PENDING),
   ("PAUSED", InstanceState.STOPPED),
   ("REBOOT", InstanceState.REBOOTING),
   ("REBUILD", InstanceState.CONFIGURING),
   ("RESCUE", InstanceState.CONFIGURING),
   ("RESIZE", InstanceState.CONFIGURING),
   ("REVERT_RESIZE", InstanceState.CONFIGURING),
   ("SOFT_DELETED", InstanceState.STOPPED),
   ("STOPPED", InstanceState.STOPPED),
   ("SUSPENDED", InstanceState.STOPPED),
   ("SHUTOFF", InstanceState.STOPPED),
   ("UNKNOWN", InstanceState.UNKNOWN),
   ("VERIFY_RESIZE", InstanceState.CONFIGURING)]

/-- `OpenStackVolume.VOLUME_STATE_MAP` (resources.py lines 365-377). -/
def VOLUME_STATE_MAP : List (String × VolumeState) :=
  [("creating", VolumeState.CREATING),
   ("available", VolumeState.AVAILABLE),
   ("attaching", VolumeState.CONFIGURING),
   ("in-use", VolumeState.IN_USE),
   ("deleting", VolumeState.CONFIGURING),
   ("error", VolumeState.ERROR),
   ("error_deleting", VolumeState.ERROR),
   ("backing-up", VolumeState.CONFIGURING),
   ("restoring-backup", VolumeState.CONFIGURING),
   ("error_restoring", VolumeState.ERROR),
   ("error_extending", VolumeState.ERROR)]

/-- `OpenStackSnapshot.SNAPSHOT_STATE_MAP` (resources.py lines 456-462). -/
def SNAPSHOT_STATE_MAP : List (String × SnapshotState) :=
  [("creating", SnapshotState.PENDING),
   ("available", SnapshotState.AVAILABLE),
   ("deleting", SnapshotState.CONFIGURING),
   ("error", SnapshotState.ERROR),
   ("error_deleting", SnapshotState.ERROR)]

/-- `OpenStackMachineImage.IMAGE_STATE_MAP` (resources.py lines 30-37). -/
def IMAGE_STATE_MAP : List (String × MachineImageState) :=
  [("QUEUED", MachineImageState.PENDING),
   ("SAVING", MachineImageState.PENDING),
   ("ACTIVE", MachineImageState.AVAILABLE),
   ("KILLED", MachineImageState.ERROR),
   ("DELETED", MachineImageState.ERROR),
   ("PENDING_DELETE", MachineImageState.ERROR)]

/-- `OpenStackInstance.state`: `INSTANCE_STATE_MAP.get(status, UNKNOWN)`
(resources.py lines 318-321). -/
def OpenStackInstance.state (p : RawPayload) : InstanceState :=
  dictGet INSTANCE_STATE_MAP p.status InstanceState.UNKNOWN

/-- `OpenStackVolume.state` (resources.py lines 430-433). -/
def OpenStackVolume.state (p : RawPayload) : VolumeState :=
  dictGet VOLUME_STATE_MAP p.status VolumeState.UNKNOWN

/-- `OpenStackSnapshot.state` (resources.py lines 487-490). -/
def OpenStackSnapshot.state (p : RawPayload) : SnapshotState :=
  dictGet SNAPSHOT_STATE_MAP p.status SnapshotState.UNKNOWN

/-- `OpenStackMachineImage.state` (resources.py lines 73-76). -/
def OpenStackMachineImage.state (p : RawPayload) : MachineImageState :=
  dictGet IMAGE_STATE_MAP p.status MachineImageState.UNKNOWN

/-- `OpenStackInstance.refresh` (resources.py lines 323-335). The remote
describe-by-id collaborator's answer is the `remote` argument: `some p` when
the provider still knows the id (the wrapper's payload is replaced wholesale
by the freshly fetched one), `Option.none` when the resource no longer
exists (the cached payload's `status` attribute is set to the sentinel
string `"unknown"` and nothing else is touched). -/
def OpenStackInstance.refresh (cached : RawPayload) (remote : Option RawPayload) : RawPayload :=
  match remote with
  | some p => p
  | Option.none => { cached with status := "unknown" }

/-- `OpenStackVolume.refresh` (resources.py lines 435-447). -/
def OpenStackVolume.refresh (cached : RawPayload) (remote : Option RawPayload) : RawPayload :=
  match remote with
  | some p => p
  | Option.none => { cached with status := "unknown" }

/-- `OpenStackSnapshot.refresh` (resources.py lines 492-504). -/
def OpenStackSnapshot.refresh (cached : RawPayload) (remote : Option RawPayload) : RawPayload :=
  match remote with
  | some p => p
  | Option.none => { cached with status := "unknown" }

/-- `OpenStackMachineImage.refresh` (resources.py lines 78-89). -/
def OpenStackMachineImage.refresh (cached : RawPayload) (remote : Option RawPayload) : RawPayload :=
  match remote with
  | some p => p
  | Option.none => { cached with status := "unknown" }

/- ===== AWS side: dynamic Python values and the launch data model ===== -/

/-- Dynamic Python values as they flow through the AWS service methods:
`None`, a plain string, a `PlacementZone` wrapper (carrying its `name`), an
`AWSSnapshot` wrapper (carrying its `id`), a `MachineImage` wrapper, an
`InstanceType` wrapper, or a `KeyPair` wrapper. `isinstance` checks in the
source become constructor tests. -/
inductive PyVal
  | none
  | str (s : String)
  | pzone (name : String)
  | awssnap (id : String)
  | mimage (id : String)
  | itype (name : String)
  | keypair (name : String)
deriving DecidableEq, Repr

/-- Python truthiness of the values we track (`None` and the empty string
are falsy, wrapper objects are truthy). -/
def PyVal.truthy : PyVal → Bool
  | PyVal.none => false
  | PyVal.str s => !s.isEmpty
  | _ => true

/-- Python exceptions that the embedded code can raise. -/
inductive PyErr
  | stopIteration
  | attributeError
  | nameError
  | indexError
deriving DecidableEq, Repr

/-- The `.id` attribute access used by `AWSVolumeService.create`
(`snapshot.id`): defined on an `AWSSnapshot` or `MachineImage` wrapper,
an `AttributeError` on anything else. -/
def PyVal.id_attr : PyVal → Except PyErr PyVal
  | PyVal.awssnap i => Except.ok (PyVal.str i)
  | PyVal.mimage i => Except.ok (PyVal.str i)
  | _ => Except.error PyErr.attributeError

/-- `isinstance(x, PlacementZone)`. -/
def isPlacementZone : PyVal → Bool
  | PyVal.pzone _ => true
  | _ => false

/-- `isinstance(x, AWSSnapshot)`. -/
def isAWSSnapshot : PyVal → Bool
  | PyVal.awssnap _ => true
  | _ => false

/-- `zone.name if isinstance(zone, PlacementZone) else zone`
(services.py line 253 and line 428). -/
def zone_name_of (zone : PyVal) : PyVal :=
  match zone with
  | PyVal.pzone n => PyVal.str n
  | z => z

/-- `image.id if isinstance(image, MachineImage) else image`
(services.py line 425). -/
def image_id_of (image : PyVal) : PyVal :=
  match image with
  | PyVal.mimage i => PyVal.str i
  | v => v

/-- `instance_type.name if isinstance(instance_type, InstanceType) else
instance_type` (services.py lines 426-427). -/
def instance_size_of (instance_type : PyVal) : PyVal :=
  match instance_type with
  | PyVal.itype n => PyVal.str n
  | v => v

/-- `keypair.name if isinstance(keypair, KeyPair) else keypair`
(services.py lines 429-431). -/
def keypair_name_of (kp : PyVal) : PyVal :=
  match kp with
  | PyVal.keypair n => PyVal.str n
  | v => v

/-- One entry of a launch configuration's `block_devices` sequence. The
`source` sum replaces the source's runtime `isinstance` dispatch over
`Snapshot` / `Volume` / `MachineImage` / `None`. -/
inductive BDSource
  | none
  | snap (id : String)
  | vol (id : String)
  | image (id : String)
deriving DecidableEq, Repr

/-- Test for the absent-source case (the `else` arm of the dispatch). -/
def BDSource.isNone : BDSource → Bool
  | BDSource.none => true
  | _ => false

/-- A block device request from the launch configuration
(`device.is_root`, `device.is_volume`, `device.source`, `device.size`,
`device.delete_on_terminate`). `size` is an optional integer; Python's
`if device.size:` is false for both `None` and `0`. -/
structure BlockDeviceSpec where
  is_root : Bool
  is_volume : Bool
  source : BDSource
  size : Option Nat
  delete_on_terminate : Bool
deriving DecidableEq, Repr

/-- Truthiness of `device.size`. -/
def truthySize : Option Nat → Bool
  | Option.none => false
  | some n => n != 0

/-- Boto's `BlockDeviceType` record: the attributes the source assigns,
all initially unset. -/
structure BlockDeviceType where
  snapshot_id : Option String := Option.none
  volume_id : Option String := Option.none
  ephemeral_name : Option String := Option.none
  delete_on_terminate : Option Bool := Option.none
  size : Option Nat := Option.none
deriving DecidableEq, Repr

/-- Boto's `BlockDeviceMapping` dict, keyed by device name, in insertion
order. -/
def Bdm := List (String × BlockDeviceType)
deriving DecidableEq, Repr

/-- Python `dict.__setitem__`: overwrite in place when the key exists
(keeping its original position), append otherwise. -/
def dictSet (m : List (String × BlockDeviceType)) (k : String) (v : BlockDeviceType) :
    List (String × BlockDeviceType) :=
  if m.any (fun p => p.fst == k) then
    m.map (fun p => if p.fst == k then (k, v) else p)
  else m ++ [(k, v)]

/-- The launch configuration consumed by `AWSInstanceService.create`
(`launch_config.block_devices` and `launch_config.net_ids`). -/
structure LaunchConfig where
  block_devices : List BlockDeviceSpec
  net_ids : List String
deriving DecidableEq, Repr

/-- The argument record of one `ec2_conn.create_volume` call
(services.py lines 257-260). -/
structure CreateVolumeCall where
  size : Option Nat
  zone_name : PyVal
  snapshot : PyVal
deriving DecidableEq, Repr

/-- The cloudbridge volume wrapper returned by `AWSVolumeService.create`
(`cb_vol`, with its `name` set after creation). -/
structure AWSVolume where
  id : String
  name : String
deriving DecidableEq, Repr

/-- `snapshot.id if isinstance(zone, AWSSnapshot) and snapshot else
snapshot` (services.py lines 254-255). Note the `isinstance` check tests
the `zone` argument, exactly as the source does. -/
def snapshot_id_of (zone snapshot : PyVal) : Except PyErr PyVal :=
  if isAWSSnapshot zone && PyVal.truthy snapshot then PyVal.id_attr snapshot
  else Except.ok snapshot

/-- `AWSVolumeService.create` (services.py lines 249-263). The EC2
connection collaborator is modelled by `newVolId`, the id of the volume the
provider returns for this `create_volume` call; the function yields the
argument record of that call together with the wrapper built around the
result. -/
def AWSVolumeService.create (name : String) (size : Option Nat) (zone snapshot : PyVal)
    (newVolId : String) : Except PyErr (CreateVolumeCall × AWSVolume) :=
  let zone_name := zone_name_of zone
  match snapshot_id_of zone snapshot with
  | Except.error e => Except.error e
  | Except.ok snapshot_id =>
      Except.ok ({ size := size, zone_name := zone_name, snapshot := snapshot_id },
        { id := newVolId, name := name })

/- ===== The block device mapping compiler ===== -/

/-- `string.ascii_lowercase[6:]` (services.py line 466): the letters the
`next_letter` iterator yields, one per non-root volume device. -/
def next_letters : List Char := "abcdefghijklmnopqrstuvwxyz".toList.drop 6

/-- The mutable state of `_process_block_device_mappings`: the boto mapping
being built, the position of the `next_letter` iterator, the
`ephemeral_counter`, plus the log of `create_volume` calls issued so far and
the pending exception, if any (an exception aborts the remaining
iterations). -/
structure BDMState where
  bdm : List (String × BlockDeviceType)
  letterIdx : Nat
  ephemeral_counter : Nat
  calls : List CreateVolumeCall
  err : Option PyErr
deriving DecidableEq, Repr

/-- The trailing assignments of the volume branch (services.py lines
495-497): `bd_type.delete_on_terminate = device.delete_on_terminate` and,
when `device.size` is truthy, `bd_type.size = device.size`. -/
def finishVol (bd : BlockDeviceType) (device : BlockDeviceSpec) : BlockDeviceType :=
  let bd := { bd with delete_on_terminate := some device.delete_on_terminate }
  if truthySize device.size then { bd with size := device.size } else bd

/-- One iteration of the `for device in launch_config.block_devices` loop of
`_process_block_device_mappings` (services.py lines 469-499), parametrized
by the `zone` argument and by `gen`, the EC2 collaborator's fresh volume id
for the n-th `create_volume` call. Faithfully to the source: a root volume
device takes the reserved key, a non-root volume device consumes the next
letter (raising `StopIteration` when the iterator is exhausted), the source
is dispatched on its runtime type, a blank volume is provisioned via
`AWSVolumeService.create` when the source is absent, and the ephemeral
branch builds a `BlockDeviceType` labelled with the current (never
incremented) `ephemeral_counter` without ever inserting it into the
mapping. -/
def step (zone : PyVal) (gen : Nat → String) (s : BDMState) (device : BlockDeviceSpec) :
    BDMState :=
  if s.err.isSome then s
  else if device.is_volume then
    match (if device.is_root then Except.ok ("/dev/sda1", s.letterIdx)
           else match next_letters[s.letterIdx]? with
                | some c => Except.ok (String.push "sd" c, s.letterIdx + 1)
                | Option.none => Except.error PyErr.stopIteration) with
    | Except.error e => { s with err := some e }
    | Except.ok (key, idx) =>
      match device.source with
      | BDSource.snap i =>
          { s with bdm := dictSet s.bdm key (finishVol { snapshot_id := some i } device),
                   letterIdx := idx }
      | BDSource.vol i =>
          { s with bdm := dictSet s.bdm key (finishVol { volume_id := some i } device),
                   letterIdx := idx }
      | BDSource.image _ =>
          { s with bdm := dictSet s.bdm key (finishVol {} device),
                   letterIdx := idx }
      | BDSource.none =>
          match AWSVolumeService.create "" device.size zone PyVal.none
              (gen s.calls.length) with
          | Except.ok (call, new_vol) =>
              { s with bdm := dictSet s.bdm key
                         (finishVol { volume_id := some new_vol.id } device),
                       letterIdx := idx,
                       calls := s.calls ++ [call] }
          | Except.error e => { s with err := some e, letterIdx := idx }
  else
    let _bd_type : BlockDeviceType :=
      { ephemeral_name := some ("ephemeral" ++ toString s.ephemeral_counter) }
    s

/-- `AWSInstanceService._process_block_device_mappings` (services.py lines
456-501): fold the loop body over the block devices starting from the empty
mapping, letter iterator at its first letter, and `ephemeral_counter = 0`. -/
def _process_block_device_mappings (launch_config : LaunchConfig) (zone : PyVal)
    (gen : Nat → String) : BDMState :=
  launch_config.block_devices.foldl (step zone gen)
    { bdm := [], letterIdx := 0, ephemeral_counter := 0, calls := [], err := Option.none }

/-- `AWSInstanceService._get_net_id` (services.py lines 503-505). -/
def _get_net_id (launch_config : LaunchConfig) : Option String :=
  launch_config.net_ids.head?

/- ===== The launch orchestrator ===== -/

/-- The `security_groups` argument of `AWSInstanceService.create`: absent,
a (homogeneous) list of plain names, or a (homogeneous) list of
`SecurityGroup` objects carried by their names. -/
inductive SGArgs
  | absent
  | strs (l : List String)
  | groups (l : List String)
deriving DecidableEq, Repr

/-- The `security_groups_list` marshaling (services.py lines 432-439): a
falsy argument (absent or an empty list) becomes `None`; a list whose first
element is a `SecurityGroup` is mapped to the group names; any other list is
passed through unchanged. -/
def security_groups_list : SGArgs → Option (List String)
  | SGArgs.absent => Option.none
  | SGArgs.strs [] => Option.none
  | SGArgs.strs l => some l
  | SGArgs.groups [] => Option.none
  | SGArgs.groups l => some l

/-- One EC2 instance entity inside a boto reservation. -/
structure EC2Instance where
  id : String
deriving DecidableEq, Repr

/-- A boto reservation: the list of instances it contains. A falsy
`run_instances` result is modelled as `Option.none` at the call site. -/
structure Reservation where
  instances : List EC2Instance
deriving DecidableEq, Repr

/-- The cloudbridge instance wrapper built on success (`AWSInstance`, with
its display `name` assigned right after construction). -/
structure AWSInstanceHandle where
  id : String
  name : String
deriving DecidableEq, Repr

/-- The argument record of one `ec2_conn.run_instances` call
(services.py lines 446-450). -/
structure RunInstancesCall where
  image_id : PyVal
  instance_type : PyVal
  placement : PyVal
  key_name : PyVal
  security_groups : Option (List String)
  user_data : PyVal
  block_device_map : Option (List (String × BlockDeviceType))
  subnet_id : Option String
deriving DecidableEq, Repr

/-- Everything observable about one `AWSInstanceService.create` call: the
`create_volume` calls issued while compiling the launch configuration, the
`run_instances` calls issued, and the returned value or raised exception. -/
structure CreateResult where
  volCalls : List CreateVolumeCall
  runCalls : List RunInstancesCall
  result : Except PyErr AWSInstanceHandle
deriving Repr

/-- The tail of `AWSInstanceService.create` (services.py lines 446-454):
issue the single `run_instances` call, then build the wrapper from
`reservation.instances[0]` when the reservation is truthy. When the
reservation is falsy the `if` body is skipped and `return instance` reads a
local that was never bound, raising `NameError`; a truthy reservation with
no instances raises `IndexError` at the subscript. -/
def run_phase (name : String) (image_id instance_size zone_name keypair_name : PyVal)
    (sgl : Option (List String)) (user_data : PyVal)
    (volCalls : List CreateVolumeCall)
    (bdm : Option (List (String × BlockDeviceType))) (net_id : Option String)
    (reservation : Option Reservation) : CreateResult :=
  let call : RunInstancesCall :=
    { image_id := image_id, instance_type := instance_size, placement := zone_name,
      key_name := keypair_name, security_groups := sgl, user_data := user_data,
      block_device_map := bdm, subnet_id := net_id }
  let result : Except PyErr AWSInstanceHandle :=
    match reservation with
    | some r =>
        match r.instances.head? with
        | some inst => Except.ok { id := inst.id, name := name }
        | Option.none => Except.error PyErr.indexError
    | Option.none => Except.error PyErr.nameError
  { volCalls := volCalls, runCalls := [call], result := result }

/-- `AWSInstanceService.create` (services.py lines 418-454): marshal the
arguments, compile the launch configuration when one is given (any exception
raised there propagates before `run_instances` is reached), then run the
single instance-creation call. `gen` is the EC2 collaborator's fresh volume
id per `create_volume` call and `reservation` its answer to the
`run_instances` call (`Option.none` for a falsy result). -/
def AWSInstanceService.create (name : String) (image instance_type zone kp : PyVal)
    (security_groups : SGArgs) (user_data : PyVal) (launch_config : Option LaunchConfig)
    (gen : Nat → String) (reservation : Option Reservation) : CreateResult :=
  let image_id := image_id_of image
  let instance_size := instance_size_of instance_type
  let zone_name := zone_name_of zone
  let keypair_name := keypair_name_of kp
  let sgl := security_groups_list security_groups
  match launch_config with
  | some lc =>
      let st := _process_block_device_mappings lc zone_name gen
      match st.err with
      | some e => { volCalls := st.calls, runCalls := [], result := Except.error e }
      | Option.none =>
          run_phase name image_id instance_size zone_name keypair_name sgl user_data
            st.calls (some st.bdm) (_get_net_id lc) reservation
  | Option.none =>
      run_phase name image_id instance_size zone_name keypair_name sgl user_data
        [] Option.none Option.none reservation

/- ===== Derived notions and concrete inputs used by the theorems ===== -/

/-- A device spec that makes the compiler provision a blank volume: it is
volume-backed and its source is absent (services.py lines 485-494). -/
def needsBlankVolume (d : BlockDeviceSpec) : Bool :=
  d.is_volume && BDSource.isNone d.source

/-- The `create_volume` call the compiler issues for one source-less volume
device: the device's requested size, the given zone, and no snapshot. -/
def blankVolCall (d : BlockDeviceSpec) (zone : PyVal) : CreateVolumeCall :=
  { size := d.size, zone_name := zone_name_of zone, snapshot := PyVal.none }

/-- The initial loop state of `_process_block_device_mappings`. -/
def initBDMState : BDMState :=
  { bdm := [], letterIdx := 0, ephemeral_counter := 0, calls := [], err := Option.none }

/-- A concrete EC2 collaborator: the n-th `create_volume` call returns a
volume whose id is `vol-new-<n>`. -/
def demoGen : Nat → String := fun n => "vol-new-" ++ toString n

/-- A root volume device with no source and a requested size. -/
def rootBlankSpec (n : Nat) : BlockDeviceSpec :=
  { is_root := true, is_volume := true, source := BDSource.none, size := some n,
    delete_on_terminate := false }

/-- A launch configuration with two devices marked `is_root`. -/
def cfgTwoRoots : LaunchConfig :=
  { block_devices := [rootBlankSpec 1, rootBlankSpec 2], net_ids := [] }

/-- An ephemeral (non-volume) device spec. -/
def ephSpec : BlockDeviceSpec :=
  { is_root := false, is_volume := false, source := BDSource.none, size := Option.none,
    delete_on_terminate := false }

/-- A launch configuration of two ephemeral-only devices. -/
def cfgTwoEphemeral : LaunchConfig :=
  { block_devices := [ephSpec, ephSpec], net_ids := [] }

/-- A non-root, volume-backed device with no source and size 5 GiB. -/
def blankSpec5 : BlockDeviceSpec :=
  { is_root := false, is_volume := true, source := BDSource.none, size := some 5,
    delete_on_terminate := true }

/-- A launch configuration holding a single source-less data volume. -/
def cfgBlank : LaunchConfig := { block_devices := [blankSpec5], net_ids := [] }

/-- A snapshot-backed root volume device. -/
def mixedRootSpec : BlockDeviceSpec :=
  { is_root := true, is_volume := true, source := BDSource.snap "snap-1", size := Option.none,
    delete_on_terminate := true }

/-- A source-less non-root data volume of 3 GiB. -/
def mixedDataSpec1 : BlockDeviceSpec :=
  { is_root := false, is_volume := true, source := BDSource.none, size := some 3,
    delete_on_terminate := false }

/-- A non-root data volume backed by an existing volume. -/
def mixedDataSpec2 : BlockDeviceSpec :=
  { is_root := false, is_volume := true, source := BDSource.vol "vol-9", size := Option.none,
    delete_on_terminate := true }

/-- The mixed launch configuration of C7: one root volume spec, two non-root
volume specs, one ephemeral spec, in that order. -/
def cfgMixed : LaunchConfig :=
  { block_devices := [mixedRootSpec, mixedDataSpec1, mixedDataSpec2, ephSpec], net_ids := [] }
/- ===== Theorems for the refresh / normalization claims ===== -/

/-- C3: for every tracked resource kind (instance, volume, snapshot, image)
whose remote identity no longer exists, `refresh` does not fail: the cached
payload's status is set to the sentinel `"unknown"`, which normalizes to the
canonical UNKNOWN state, and every cached field other than status keeps its
last observed value. -/
theorem refresh_not_found_unknown_preserves_fields (cached : RawPayload) :
    (OpenStackInstance.state (OpenStackInstance.refresh cached Option.none) =
        InstanceState.UNKNOWN
      ∧ (OpenStackInstance.refresh cached Option.none).fields = cached.fields)
    ∧ (OpenStackVolume.state (OpenStackVolume.refresh cached Option.none) =
        VolumeState.UNKNOWN
      ∧ (OpenStackVolume.refresh cached Option.none).fields = cached.fields)
    ∧ (OpenStackSnapshot.state (OpenStackSnapshot.refresh cached Option.none) =
        SnapshotState.UNKNOWN
      ∧ (OpenStackSnapshot.refresh cached Option.none).fields = cached.fields)
    ∧ (OpenStackMachineImage.state (OpenStackMachineImage.refresh cached Option.none) =
        MachineImageState.UNKNOWN
      ∧ (OpenStackMachineImage.refresh cached Option.none).fields = cached.fields) :=
  ⟨⟨rfl, rfl⟩, ⟨rfl, rfl⟩, ⟨rfl, rfl⟩, ⟨rfl, rfl⟩⟩

/-- C4: each state property is total over raw status strings: a status
present in the resource kind's mapping table normalizes to exactly the one
mapped canonical state, and a status absent from the table normalizes to
UNKNOWN. -/
theorem state_map_total_normalization (p : RawPayload) :
    ((INSTANCE_STATE_MAP.lookup p.status = Option.none →
        OpenStackInstance.state p = InstanceState.UNKNOWN)
      ∧ ∀ v, INSTANCE_STATE_MAP.lookup p.status = some v →
        OpenStackInstance.state p = v)
    ∧ ((VOLUME_STATE_MAP.lookup p.status = Option.none →
        OpenStackVolume.state p = VolumeState.UNKNOWN)
      ∧ ∀ v, VOLUME_STATE_MAP.lookup p.status = some v →
        OpenStackVolume.state p = v)
    ∧ ((SNAPSHOT_STATE_MAP.lookup p.status = Option.none →
        OpenStackSnapshot.state p = SnapshotState.UNKNOWN)
      ∧ ∀ v, SNAPSHOT_STATE_MAP.lookup p.status = some v →
        OpenStackSnapshot.state p = v)
    ∧ ((IMAGE_STATE_MAP.lookup p.status = Option.none →
        OpenStackMachineImage.state p = MachineImageState.UNKNOWN)
      ∧ ∀ v, IMAGE_STATE_MAP.lookup p.status = some v →
        OpenStackMachineImage.state p = v) := by
  refine ⟨⟨?_, ?_⟩, ⟨?_, ?_⟩, ⟨?_, ?_⟩, ⟨?_, ?_⟩⟩ <;>
    first
      | (intro h
         simp [OpenStackInstance.state, OpenStackVolume.state, OpenStackSnapshot.state,
           OpenStackMachineImage.state, dictGet, h])
      | (intro v h
         simp [OpenStackInstance.state, OpenStackVolume.state, OpenStackSnapshot.state,
           OpenStackMachineImage.state, dictGet, h])

/-- Witness for C4 at concrete inputs: "ACTIVE" is in the instance table and
maps to RUNNING; "totally-bogus" is in no table and maps to UNKNOWN. -/
theorem state_map_total_normalization_witness :
    OpenStackInstance.state { status := "ACTIVE", fields := [] } = InstanceState.RUNNING
    ∧ OpenStackInstance.state { status := "totally-bogus", fields := [] } =
        InstanceState.UNKNOWN :=
  ⟨(state_map_total_normalization { status := "ACTIVE", fields := [] }).1.2
      InstanceState.RUNNING (by decide),
   (state_map_total_normalization { status := "totally-bogus", fields := [] }).1.1
      (by decide)⟩

/-- C8: `refresh` is idempotent for every resource kind: with the remote
provider's answer unchanged, a second refresh leaves the cached view
structurally identical to the view after the first one (in particular,
refreshing an already-not-found resource changes nothing). -/
theorem refresh_idempotent (cached : RawPayload) (remote : Option RawPayload) :
    OpenStackInstance.refresh (OpenStackInstance.refresh cached remote) remote =
      OpenStackInstance.refresh cached remote
    ∧ OpenStackVolume.refresh (OpenStackVolume.refresh cached remote) remote =
      OpenStackVolume.refresh cached remote
    ∧ OpenStackSnapshot.refresh (OpenStackSnapshot.refresh cached remote) remote =
      OpenStackSnapshot.refresh cached remote
    ∧ OpenStackMachineImage.refresh (OpenStackMachineImage.refresh cached remote) remote =
      OpenStackMachineImage.refresh cached remote := by
  cases remote <;> exact ⟨rfl, rfl, rfl, rfl⟩

/- ===== Helper lemmas about the compiler loop ===== -/

/-- A loop iteration cannot clear a pending exception: if the state after
the step has no exception, the state before it had none either. -/
theorem step_err_none (zone : PyVal) (gen : Nat → String) (s : BDMState)
    (d : BlockDeviceSpec) (h : (step zone gen s d).err = Option.none) :
    s.err = Option.none := by
  cases he : s.err with
  | none => rfl
  | some e => simp [step, he] at h

/-- With no pending exception before or after an iteration, the iteration
appends exactly the provisioning call of a source-less volume device, and no
call otherwise. -/
theorem step_calls_eq (zone : PyVal) (gen : Nat → String) (s : BDMState)
    (d : BlockDeviceSpec) (h : s.err = Option.none)
    (h2 : (step zone gen s d).err = Option.none) :
    (step zone gen s d).calls =
      s.calls ++ (if needsBlankVolume d then [blankVolCall d zone] else []) := by
  cases hv : d.is_volume with
  | false => simp [step, h, hv, needsBlankVolume]
  | true =>
    cases hr : d.is_root with
    | true =>
        cases hs : d.source <;>
          simp [step, h, hv, hr, hs, needsBlankVolume, BDSource.isNone, blankVolCall,
            AWSVolumeService.create, snapshot_id_of, PyVal.truthy]
    | false =>
        cases hl : next_letters[s.letterIdx]? with
        | none => simp [step, h, hv, hr, hl] at h2
        | some c =>
            cases hs : d.source <;>
              simp [step, h, hv, hr, hl, hs, needsBlankVolume, BDSource.isNone, blankVolCall,
                AWSVolumeService.create, snapshot_id_of, PyVal.truthy]

/-- If the whole loop finishes without an exception, it started without
one. -/
theorem foldl_err_none (zone : PyVal) (gen : Nat → String) :
    ∀ (cfg : List BlockDeviceSpec) (s : BDMState),
      (cfg.foldl (step zone gen) s).err = Option.none → s.err = Option.none := by
  intro cfg
  induction cfg with
  | nil => intro s h; exact h
  | cons d rest ih =>
      intro s h
      exact step_err_none zone gen s d (ih (step zone gen s d) h)

/-- An exception-free run of the loop issues exactly one `create_volume`
call per source-less volume device, in input order, each carrying that
device's requested size and the given zone. -/
theorem foldl_calls (zone : PyVal) (gen : Nat → String) :
    ∀ (cfg : List BlockDeviceSpec) (s : BDMState),
      (cfg.foldl (step zone gen) s).err = Option.none →
      (cfg.foldl (step zone gen) s).calls =
        s.calls ++ (cfg.filter needsBlankVolume).map (fun d => blankVolCall d zone) := by
  intro cfg
  induction cfg with
  | nil => intro s _; simp
  | cons d rest ih =>
      intro s h
      have hs' : (step zone gen s d).err = Option.none := foldl_err_none zone gen rest _ h
      have hs : s.err = Option.none := step_err_none zone gen s d hs'
      have hrec := ih (step zone gen s d) h
      have hc := step_calls_eq zone gen s d hs hs'
      rw [List.foldl_cons] at h ⊢
      rw [hrec, hc]
      cases hn : needsBlankVolume d <;> simp [hn, List.filter_cons]

/-- An iteration over a non-volume (ephemeral) device leaves the loop
state unchanged: nothing is inserted into the mapping and the
`ephemeral_counter` is not advanced. -/
theorem step_ephemeral_id (zone : PyVal) (gen : Nat → String) (s : BDMState)
    (d : BlockDeviceSpec) (hv : d.is_volume = false) : step zone gen s d = s := by
  simp [step, hv]

/-- Folding the loop over ephemeral-only devices is the identity on the
loop state. -/
theorem foldl_ephemeral_const (zone : PyVal) (gen : Nat → String) :
    ∀ (cfg : List BlockDeviceSpec) (s : BDMState),
      (∀ d ∈ cfg, d.is_volume = false) → cfg.foldl (step zone gen) s = s := by
  intro cfg
  induction cfg with
  | nil => intro s _; rfl
  | cons d rest ih =>
      intro s h
      rw [List.foldl_cons, step_ephemeral_id zone gen s d (h d (by simp))]
      exact ih s (fun x hx => h x (by simp [hx]))

/- ===== Theorems for the compiler and launch claims ===== -/

/-- C1 counterexample: on a launch configuration with two entries marked
`is_root`, `_process_block_device_mappings` does not fail (no validation
error of any kind is raised) and it issues two blank-volume provisioning
calls, not zero. -/
theorem two_roots_no_failure_two_volumes :
    (_process_block_device_mappings cfgTwoRoots (PyVal.str "us-east-1a") demoGen).err =
      Option.none
    ∧ (_process_block_device_mappings cfgTwoRoots (PyVal.str "us-east-1a") demoGen).calls.length
      = 2 := ⟨rfl, rfl⟩

/-- C1 amended: the compiler performs no multiple-root validation. On a
configuration of two source-less root volume specs it completes without
error, provisions one blank volume per root spec (two calls, each with that
spec's size and the given zone), and each root spec writes the single
reserved `/dev/sda1` slot in turn, the second overwriting the first, so the
final mapping holds one slot carrying the second spec's descriptor. -/
theorem multi_root_no_validation (d1 d2 : BlockDeviceSpec) (zone : PyVal)
    (gen : Nat → String)
    (h1r : d1.is_root = true) (h1v : d1.is_volume = true) (h1s : d1.source = BDSource.none)
    (h2r : d2.is_root = true) (h2v : d2.is_volume = true) (h2s : d2.source = BDSource.none) :
    (_process_block_device_mappings { block_devices := [d1, d2], net_ids := [] } zone gen).err
      = Option.none
    ∧ (_process_block_device_mappings { block_devices := [d1, d2], net_ids := [] } zone
        gen).calls = [blankVolCall d1 zone, blankVolCall d2 zone]
    ∧ (_process_block_device_mappings { block_devices := [d1, d2], net_ids := [] } zone
        gen).bdm = [("/dev/sda1", finishVol { volume_id := some (gen 1) } d2)] := by
  refine ⟨?_, ?_, ?_⟩ <;>
    simp [_process_block_device_mappings, step, h1r, h1v, h1s, h2r, h2v, h2s,
      AWSVolumeService.create, snapshot_id_of, PyVal.truthy, blankVolCall, dictSet]

/-- Witness for the amended C1 at a concrete two-root configuration. -/
theorem multi_root_no_validation_witness :
    (_process_block_device_mappings cfgTwoRoots (PyVal.str "us-east-1a") demoGen).calls =
      [blankVolCall (rootBlankSpec 1) (PyVal.str "us-east-1a"),
       blankVolCall (rootBlankSpec 2) (PyVal.str "us-east-1a")]
    ∧ (_process_block_device_mappings cfgTwoRoots (PyVal.str "us-east-1a") demoGen).bdm =
      [("/dev/sda1", finishVol { volume_id := some (demoGen 1) } (rootBlankSpec 2))] :=
  ⟨(multi_root_no_validation (rootBlankSpec 1) (rootBlankSpec 2) (PyVal.str "us-east-1a")
      demoGen rfl rfl rfl rfl rfl rfl).2.1,
   (multi_root_no_validation (rootBlankSpec 1) (rootBlankSpec 2) (PyVal.str "us-east-1a")
      demoGen rfl rfl rfl rfl rfl rfl).2.2⟩

/-- C2: on an ephemeral-only launch configuration the compiler's loop is the
identity on its state: the returned mapping is empty (the ephemeral
descriptors built in the loop body are never inserted into it) and the
`ephemeral_counter` is still 0 at the end (it is never incremented), so the
claimed plan with descriptors indexed 0..N-1 is not produced. -/
theorem ephemeral_only_mapping_empty (lc : LaunchConfig) (zone : PyVal)
    (gen : Nat → String) (h : ∀ d ∈ lc.block_devices, d.is_volume = false) :
    _process_block_device_mappings lc zone gen = initBDMState := by
  unfold _process_block_device_mappings
  exact foldl_ephemeral_const zone gen lc.block_devices _ h

/-- Witness for C2 at the two-ephemeral configuration: the result is the
initial state: empty mapping, counter 0, no calls, no error. -/
theorem ephemeral_only_mapping_empty_witness :
    _process_block_device_mappings cfgTwoEphemeral (PyVal.str "us-east-1a") demoGen =
      initBDMState :=
  ephemeral_only_mapping_empty cfgTwoEphemeral (PyVal.str "us-east-1a") demoGen (by decide)

/-- C5: first, an exception-free compilation issues exactly one
blank-volume provisioning call per source-less volume spec, in input order,
each carrying that spec's requested size and the given (non-absent) zone;
second, the loop iteration on a non-root source-less volume spec inserts
into the mapping, at the freshly assigned lettered slot, a descriptor whose
`volume_id` is exactly the id the provisioning collaborator returned for
that call (the call appended at position `s.calls.length`). -/
theorem blank_volume_provisioning_calls :
    (∀ (lc : LaunchConfig) (zone : PyVal) (gen : Nat → String),
      zone ≠ PyVal.none →
      (_process_block_device_mappings lc zone gen).err = Option.none →
      (_process_block_device_mappings lc zone gen).calls =
        (lc.block_devices.filter needsBlankVolume).map (fun d => blankVolCall d zone))
    ∧ (∀ (zone : PyVal) (gen : Nat → String) (s : BDMState) (d : BlockDeviceSpec) (c : Char),
      s.err = Option.none → d.is_volume = true → d.is_root = false →
      d.source = BDSource.none →
      next_letters[s.letterIdx]? = some c →
      step zone gen s d =
        { s with
            bdm := dictSet s.bdm (String.push "sd" c)
              (finishVol { volume_id := some (gen s.calls.length) } d),
            letterIdx := s.letterIdx + 1,
            calls := s.calls ++ [blankVolCall d zone] }) := by
  constructor
  · intro lc zone gen _ h
    exact foldl_calls zone gen lc.block_devices _ h
  · intro zone gen s d c h hv hr hs hl
    simp [step, h, hv, hr, hs, hl, AWSVolumeService.create, snapshot_id_of,
      PyVal.truthy, blankVolCall]

/-- Witness for C5: the single-blank-volume configuration issues exactly its
one call, and the first loop iteration on that spec emits the descriptor
carrying the collaborator's returned id under slot `sdg`. -/
theorem blank_volume_provisioning_calls_witness :
    (_process_block_device_mappings cfgBlank (PyVal.str "us-west-1b") demoGen).calls =
      (cfgBlank.block_devices.filter needsBlankVolume).map
        (fun d => blankVolCall d (PyVal.str "us-west-1b"))
    ∧ step (PyVal.str "us-west-1b") demoGen initBDMState blankSpec5 =
      { initBDMState with
          bdm := dictSet initBDMState.bdm (String.push "sd" 'g')
            (finishVol { volume_id := some (demoGen initBDMState.calls.length) } blankSpec5),
          letterIdx := initBDMState.letterIdx + 1,
          calls := initBDMState.calls ++ [blankVolCall blankSpec5 (PyVal.str "us-west-1b")] } :=
  ⟨blank_volume_provisioning_calls.1 cfgBlank (PyVal.str "us-west-1b") demoGen
      (by decide) (by decide),
   blank_volume_provisioning_calls.2 (PyVal.str "us-west-1b") demoGen initBDMState
      blankSpec5 'g' rfl rfl rfl rfl rfl⟩

/-- C7: on the mixed configuration (root volume spec, two non-root volume
specs, one ephemeral spec, in order), the compiler assigns the reserved
`/dev/sda1` slot to the root spec and the sequential lettered slots `sdg`
and `sdh` to the two non-root volume specs in input order — but the
ephemeral spec's descriptor (which would be labelled `ephemeral0`) is never
inserted, so the returned mapping has exactly these three slots, not four. -/
theorem mixed_config_mapping_three_slots :
    _process_block_device_mappings cfgMixed (PyVal.str "us-east-1a") demoGen =
      { bdm := [("/dev/sda1",
                 { snapshot_id := some "snap-1", delete_on_terminate := some true }),
                ("sdg",
                 { volume_id := some "vol-new-0", delete_on_terminate := some false,
                   size := some 3 }),
                ("sdh",
                 { volume_id := some "vol-9", delete_on_terminate := some true })],
        letterIdx := 2, ephemeral_counter := 0,
        calls := [{ size := some 3, zone_name := PyVal.str "us-east-1a",
                    snapshot := PyVal.none }],
        err := Option.none } := by decide

/-- C6: `AWSInstanceService.create` with no launch configuration issues
exactly one `run_instances` call, and that call carries no block-device
mapping and no subnet id (both `None`); with a launch configuration whose
compilation raises no exception, still exactly one `run_instances` call is
issued, however many block devices the configuration requests. -/
theorem single_run_instances_call :
    (∀ (name : String) (image itype zone kp user_data : PyVal) (sg : SGArgs)
        (gen : Nat → String) (res : Option Reservation),
      (AWSInstanceService.create name image itype zone kp sg user_data Option.none gen
          res).runCalls =
        [{ image_id := image_id_of image, instance_type := instance_size_of itype,
           placement := zone_name_of zone, key_name := keypair_name_of kp,
           security_groups := security_groups_list sg, user_data := user_data,
           block_device_map := Option.none, subnet_id := Option.none }])
    ∧ (∀ (name : String) (image itype zone kp user_data : PyVal) (sg : SGArgs)
        (lc : LaunchConfig) (gen : Nat → String) (res : Option Reservation),
      (_process_block_device_mappings lc (zone_name_of zone) gen).err = Option.none →
      (AWSInstanceService.create name image itype zone kp sg user_data (some lc) gen
          res).runCalls.length = 1) := by
  constructor
  · intro name image itype zone kp user_data sg gen res
    rfl
  · intro name image itype zone kp user_data sg lc gen res h
    simp [AWSInstanceService.create, run_phase, h]

/-- Witness for C6: one concrete call with no launch configuration carries
neither a device mapping nor a subnet id, and one concrete call with the
mixed launch configuration still issues exactly one `run_instances` call. -/
theorem single_run_instances_call_witness :
    (AWSInstanceService.create "vm" (PyVal.mimage "ami-1") (PyVal.str "m1.small")
        (PyVal.str "us-east-1a") PyVal.none SGArgs.absent PyVal.none Option.none demoGen
        (some { instances := [{ id := "i-1" }] })).runCalls =
      [{ image_id := image_id_of (PyVal.mimage "ami-1"),
         instance_type := instance_size_of (PyVal.str "m1.small"),
         placement := zone_name_of (PyVal.str "us-east-1a"),
         key_name := keypair_name_of PyVal.none,
         security_groups := security_groups_list SGArgs.absent, user_data := PyVal.none,
         block_device_map := Option.none, subnet_id := Option.none }]
    ∧ (AWSInstanceService.create "vm" (PyVal.mimage "ami-1") (PyVal.str "m1.small")
        (PyVal.str "us-east-1a") PyVal.none SGArgs.absent PyVal.none (some cfgMixed) demoGen
        (some { instances := [{ id := "i-1" }] })).runCalls.length = 1 :=
  ⟨single_run_instances_call.1 "vm" (PyVal.mimage "ami-1") (PyVal.str "m1.small")
      (PyVal.str "us-east-1a") PyVal.none PyVal.none SGArgs.absent demoGen
      (some { instances := [{ id := "i-1" }] }),
   single_run_instances_call.2 "vm" (PyVal.mimage "ami-1") (PyVal.str "m1.small")
      (PyVal.str "us-east-1a") PyVal.none PyVal.none SGArgs.absent cfgMixed demoGen
      (some { instances := [{ id := "i-1" }] }) (by decide)⟩

/-- C9: when the `run_instances` collaborator returns a falsy reservation,
`AWSInstanceService.create` neither returns `None` nor a wrapper: the `if`
body that binds the local `instance` is skipped and the trailing
`return instance` raises `NameError` (an unbound local), whether or not a
launch configuration was supplied (provided its compilation raised
nothing). -/
theorem falsy_reservation_name_error :
    (∀ (name : String) (image itype zone kp user_data : PyVal) (sg : SGArgs)
        (gen : Nat → String),
      (AWSInstanceService.create name image itype zone kp sg user_data Option.none gen
          Option.none).result = Except.error PyErr.nameError)
    ∧ (∀ (name : String) (image itype zone kp user_data : PyVal) (sg : SGArgs)
        (lc : LaunchConfig) (gen : Nat → String),
      (_process_block_device_mappings lc (zone_name_of zone) gen).err = Option.none →
      (AWSInstanceService.create name image itype zone kp sg user_data (some lc) gen
          Option.none).result = Except.error PyErr.nameError) := by
  constructor
  · intro name image itype zone kp user_data sg gen
    rfl
  · intro name image itype zone kp user_data sg lc gen h
    simp [AWSInstanceService.create, run_phase, h]

/-- Witness for C9 at a concrete launch whose reservation is falsy. -/
theorem falsy_reservation_name_error_witness :
    (AWSInstanceService.create "vm" (PyVal.mimage "ami-1") (PyVal.str "m1.small")
        (PyVal.str "us-east-1a") PyVal.none SGArgs.absent PyVal.none (some cfgBlank) demoGen
        Option.none).result = Except.error PyErr.nameError :=
  falsy_reservation_name_error.2 "vm" (PyVal.mimage "ami-1") (PyVal.str "m1.small")
    (PyVal.str "us-east-1a") PyVal.none PyVal.none SGArgs.absent cfgBlank demoGen (by decide)

/-- C10: whenever the `zone` argument of `AWSVolumeService.create` is not an
`AWSSnapshot` value — the normal case, `zone` being a string or a
`PlacementZone` — the `snapshot` argument is forwarded to the provider's
`create_volume` call unchanged, its `id` never extracted even when it is an
`AWSSnapshot` object, because the `isinstance` disambiguation tests `zone`
instead of `snapshot`. -/
theorem snapshot_forwarded_unchanged (name : String) (size : Option Nat)
    (zone snapshot : PyVal) (vid : String) (h : isAWSSnapshot zone = false) :
    AWSVolumeService.create name size zone snapshot vid =
      Except.ok ({ size := size, zone_name := zone_name_of zone, snapshot := snapshot },
        { id := vid, name := name }) := by
  simp [AWSVolumeService.create, snapshot_id_of, h]

/-- Witness for C10: with a plain string zone and an `AWSSnapshot` object as
the snapshot argument, the call forwards the snapshot object itself, not its
id. -/
theorem snapshot_forwarded_unchanged_witness :
    AWSVolumeService.create "v" (some 8) (PyVal.str "us-east-1a")
        (PyVal.awssnap "snap-42") "vol-1" =
      Except.ok ({ size := some 8, zone_name := PyVal.str "us-east-1a",
                   snapshot := PyVal.awssnap "snap-42" }, { id := "vol-1", name := "v" }) :=
  snapshot_forwarded_unchanged "v" (some 8) (PyVal.str "us-east-1a")
    (PyVal.awssnap "snap-42") "vol-1" rfl

/-- Witness for C3 at a concrete cached payload with a non-status field. -/
theorem refresh_not_found_unknown_preserves_fields_witness :
    OpenStackInstance.state
        (OpenStackInstance.refresh { status := "ACTIVE", fields := [("name", "vm1")] }
          Option.none) = InstanceState.UNKNOWN
    ∧ (OpenStackInstance.refresh { status := "ACTIVE", fields := [("name", "vm1")] }
        Option.none).fields = [("name", "vm1")] :=
  ⟨(refresh_not_found_unknown_preserves_fields
      { status := "ACTIVE", fields := [("name", "vm1")] }).1.1,
   (refresh_not_found_unknown_preserves_fields
      { status := "ACTIVE", fields := [("name", "vm1")] }).1.2⟩

/-- Witness for C8 at a concrete cached payload and a concrete (not-found)
remote answer. -/
theorem refresh_idempotent_witness :
    OpenStackVolume.refresh
        (OpenStackVolume.refresh { status := "available", fields := [] } Option.none)
        Option.none =
      OpenStackVolume.refresh { status := "available", fields := [] } Option.none :=
  (refresh_idempotent { status := "available", fields := [] } Option.none).2.1
